import Mathlib

/-!
# WaitSet (src/wait/WaitSet.hpp)

A shallow embedding of the class `wt::WaitSet`: the data members, the three
conditionally compiled constructors, the destructor, the two accessors and the
four public wait entry points, all of which are defined inline in the header.

Modelling conventions.

* `unsigned` and `std::uint32_t` are natural numbers below `2 ^ 32`; the one
  arithmetic expression that can overflow (`maxSize * 2`) is reduced modulo
  `2 ^ 32` explicitly, and the cast `int(maxSize)` wraps modulo `2 ^ 32`.
* Preprocessor selections (`M_OS`, and `DEBUG`, which decides whether the
  assertion macros of utki expand to a check or to nothing) and the operating
  system calls made by the constructor (`epoll_create`, `kqueue`) are fields of
  a `Config` that every operation takes as a parameter.
* An operation yields a `Run`: how it ended (returned, threw `WaitSet::Exc`, or
  tripped an assertion) together with the system calls it made, in order.
* Allocation of the `std::vector` members is assumed to succeed; a vector
  constructed with a length holds that many value-initialised elements.
-/

namespace wt

/-! ## Machine integers -/

/-- Number of values of the C++ type `unsigned` on the supported targets. -/
def UNSIGNED_RANGE : Nat := 2 ^ 32

/-- The cast `int(u)` of an `unsigned` to a 32-bit `int`: values up to
`2 ^ 31 - 1` are kept, larger ones wrap around modulo `2 ^ 32`. -/
def int_cast (u : Nat) : Int :=
  if u % 2 ^ 32 < 2 ^ 31 then ((u % 2 ^ 32 : Nat) : Int)
  else ((u % 2 ^ 32 : Nat) : Int) - 2 ^ 32

/-- The product `a * b` computed in the type `unsigned`. -/
def unsigned_mul (a b : Nat) : Nat := (a * b) % 2 ^ 32

/-! ## Build configuration and environment -/

/-- The values of `M_OS` for which the header compiles. -/
inductive OS where
  | WINDOWS
  | LINUX
  | MACOSX
  deriving DecidableEq

/-- Everything the header takes from outside: the preprocessor symbols and the
results of the operating system calls made by the constructor. -/
structure Config where
  /-- The target operating system, `M_OS`. -/
  M_OS : OS
  /-- Whether `DEBUG` is defined, that is whether `ASSERT` and `ASSERT_INFO`
  expand to a check. -/
  DEBUG : Bool
  /-- The constant `MAXIMUM_WAIT_OBJECTS` of the Windows headers. -/
  MAXIMUM_WAIT_OBJECTS : Nat
  /-- The value `epoll_create(size)` returns. -/
  epoll_create : Int → Int
  /-- The value `kqueue()` returns. -/
  kqueue : Int

/-- A system call made by an operation, with its argument and result. -/
inductive SysCall where
  | epoll_create (size : Int) (ret : Int)
  | kqueue (ret : Int)
  | close (fd : Int)
  deriving DecidableEq

/-- How an operation ended. -/
inductive Outcome (α : Type) where
  /-- Normal completion. -/
  | returned (value : α)
  /-- A `WaitSet::Exc` was thrown with this message. -/
  | threw (what : String)
  /-- An `ASSERT` or `ASSERT_INFO` found its condition false. -/
  | assertFailed (info : String)
  deriving DecidableEq

/-- An operation as observed from outside: its outcome and its system calls. -/
structure Run (α : Type) where
  outcome : Outcome α
  calls : List SysCall
  deriving DecidableEq

/-- The result of the diagnostic `ASSERT_INFO(x, y)`. The definition of this
preprocessor symbol is in `utki/debug.hpp`, a library outside this repository:
with `DEBUG` defined a false condition reports the message `y` and stops the
program; without `DEBUG` the line expands to nothing. The header relies on
this: lines 95 to 97 assert `maxSize <= MAXIMUM_WAIT_OBJECTS` and then test the
same condition again in order to throw, which is reachable only when the
assertion is compiled out. `none` means execution continues. -/
def ASSERT_INFO (cfg : Config) (x : Bool) (y : String) : Option String :=
  if cfg.DEBUG && !x then some y else none

/-- The utki diagnostic `ASSERT(x)`, which is `ASSERT_INFO` without a message
of its own. -/
def ASSERT (cfg : Config) (x : Bool) : Option String :=
  ASSERT_INFO cfg x "no additional info"

/-! ## Data members -/

/-- A `Waitable*`: `none` is the null pointer, `some i` points at the waitable
with identity `i`. -/
abbrev WaitablePtr := Option Nat

/-- A Windows `HANDLE`; `0` is the null handle. -/
abbrev HANDLE := Nat

/-- The fields of `struct epoll_event`. -/
structure epoll_event where
  events : Nat
  data : Nat
  deriving DecidableEq

/-- The fields of `struct kevent`. -/
structure kevent where
  ident : Nat
  filter : Int
  flags : Nat
  fflags : Nat
  data : Int
  udata : Nat
  deriving DecidableEq

/-- The members that depend on `M_OS` (lines 57 to 71). -/
inductive Backend where
  | WINDOWS (waitables : List WaitablePtr) (handles : List HANDLE)
  | LINUX (epollSet : Int) (revents : List epoll_event)
  | MACOSX (queue : Int) (revents : List kevent)
  deriving DecidableEq

/-- The class `WaitSet` (lines 53 to 71). -/
structure WaitSet where
  size_var : Nat
  numWaitables_var : Nat
  backend : Backend
  deriving DecidableEq

/-! ## Constructor, destructor, accessors -/

/-- The constructor `WaitSet::WaitSet(unsigned maxSize)` (lines 89 to 120).
The member initialisers run first (`size_var(maxSize)`, the default
`numWaitables_var = 0`, and the vectors), then the body for the target. -/
def WaitSet.create (cfg : Config) (maxSize : Nat) : Run WaitSet :=
  match cfg.M_OS with
  | .WINDOWS =>
    let self : WaitSet :=
      { size_var := maxSize
        numWaitables_var := 0
        backend := .WINDOWS (List.replicate maxSize none) (List.replicate maxSize 0) }
    match ASSERT_INFO cfg (decide (maxSize ≤ cfg.MAXIMUM_WAIT_OBJECTS))
        ("maxSize should be less than " ++ toString cfg.MAXIMUM_WAIT_OBJECTS) with
    | some info => ⟨.assertFailed info, []⟩
    | none =>
      if maxSize > cfg.MAXIMUM_WAIT_OBJECTS then
        ⟨.threw "WaitSet::WaitSet(): requested WaitSet size is too big", []⟩
      else
        ⟨.returned self, []⟩
  | .LINUX =>
    match ASSERT cfg (decide (int_cast maxSize > 0)) with
    | some info => ⟨.assertFailed info, []⟩
    | none =>
      let epollSet := cfg.epoll_create (int_cast maxSize)
      let calls := [SysCall.epoll_create (int_cast maxSize) epollSet]
      if epollSet < 0 then
        ⟨.threw "WaitSet::WaitSet(): epoll_create() failed", calls⟩
      else
        ⟨.returned
          { size_var := maxSize
            numWaitables_var := 0
            backend := .LINUX epollSet (List.replicate maxSize ⟨0, 0⟩) }, calls⟩
  | .MACOSX =>
    let queue := cfg.kqueue
    let calls := [SysCall.kqueue queue]
    if queue = -1 then
      ⟨.threw "WaitSet::WaitSet(): kqueue creation failed", calls⟩
    else
      ⟨.returned
        { size_var := maxSize
          numWaitables_var := 0
          backend := .MACOSX queue
            (List.replicate (unsigned_mul maxSize 2) ⟨0, 0, 0, 0, 0, 0⟩) }, calls⟩

/-- The destructor `WaitSet::~WaitSet()` (lines 131 to 143). The branch of the
`#if` is read off the members the object has, which are those of the target
it was compiled for. The value `close` returns is discarded. -/
def WaitSet.destroy (cfg : Config) (self : WaitSet) : Run Unit :=
  match ASSERT_INFO cfg (decide (self.numWaitables_var = 0))
      "attempt to destroy WaitSet containig Waitables" with
  | some info => ⟨.assertFailed info, []⟩
  | none =>
    match self.backend with
    | .WINDOWS _ _ => ⟨.returned (), []⟩
    | .LINUX epollSet _ => ⟨.returned (), [SysCall.close epollSet]⟩
    | .MACOSX queue _ => ⟨.returned (), [SysCall.close queue]⟩

/-- The accessor `WaitSet::size()` (lines 151 to 153): the value returned and
the object after the call. -/
def WaitSet.size (self : WaitSet) : Nat × WaitSet := (self.size_var, self)

/-- The accessor `WaitSet::numWaitables()` (lines 159 to 161): the value
returned and the object after the call. -/
def WaitSet.numWaitables (self : WaitSet) : Nat × WaitSet :=
  (self.numWaitables_var, self)

/-! ## The public wait entry points -/

/-- A `utki::Buf<Waitable*>`: the caller's buffer for the triggered objects. -/
abbrev Buf := List WaitablePtr

/-- The type of the private member
`wait(bool waitInfinitly, std::uint32_t timeout, utki::Buf<Waitable*>* out_events)`
(line 260). Only its declaration is in the header, so the public entry points
take it as a parameter; `ρ` stands for everything it yields (the count, the
object and buffer afterwards, an exception). The pointer argument is `none`
for the null pointer. -/
abbrev PrivateWait (ρ : Type) := WaitSet → Bool → Nat → Option Buf → ρ

/-- The member `wait(utki::Buf<Waitable*> out_events)` (lines 212 to 214). -/
def WaitSet.wait {ρ : Type} (wait_private : PrivateWait ρ) (self : WaitSet)
    (out_events : Buf) : ρ :=
  wait_private self true 0 (some out_events)

/-- The member `wait()` (lines 221 to 223). -/
def WaitSet.wait_noBuf {ρ : Type} (wait_private : PrivateWait ρ) (self : WaitSet) : ρ :=
  wait_private self true 0 none

/-- The member `waitWithTimeout(std::uint32_t timeout, utki::Buf<Waitable*> out_events)`
(lines 241 to 243). -/
def WaitSet.waitWithTimeout {ρ : Type} (wait_private : PrivateWait ρ) (self : WaitSet)
    (timeout : Nat) (out_events : Buf) : ρ :=
  wait_private self false timeout (some out_events)

/-- The member `waitWithTimeout(std::uint32_t timeout)` (lines 253 to 255). -/
def WaitSet.waitWithTimeout_noBuf {ρ : Type} (wait_private : PrivateWait ρ)
    (self : WaitSet) (timeout : Nat) : ρ :=
  wait_private self false timeout none

/-! ## Registration -/

/-- The failures of `add` named by the specification. -/
inductive AddError where
  | CapacityExceeded
  | DuplicateRegistration
  | BackendError
  deriving DecidableEq

/-- A registration record of the specification: the identity of the resource
and its interest mask. -/
structure Registration where
  resource : Nat
  interest_mask : Nat
  deriving DecidableEq

/-- A wait set together with the registration records the specification
attributes to it. -/
structure Multiplexer where
  ws : WaitSet
  records : List Registration
  deriving DecidableEq

/-- Modelled from the spec: the body of `WaitSet::add`, which the header only
declares (line 170); the file that defines it is not among the sources. The
specification says that `add` fails with `CapacityExceeded` if
`registered_count == capacity`, fails with `DuplicateRegistration` if the
resource is already registered in this Multiplexer, fails with `BackendError`
if the underlying OS registration call fails, and on success increments
`registered_count` by one and records the registration. `os_register` is the
outcome of the OS registration call. The result is the error, if any, and the
state after the call. -/
def WaitSet.add (os_register : Nat → Nat → Bool) (m : Multiplexer) (w : Nat)
    (flagsToWaitFor : Nat) : Option AddError × Multiplexer :=
  if m.ws.numWaitables_var = m.ws.size_var then
    (some .CapacityExceeded, m)
  else if m.records.any (fun r => r.resource == w) then
    (some .DuplicateRegistration, m)
  else if os_register w flagsToWaitFor = false then
    (some .BackendError, m)
  else
    (none,
      { ws := { m.ws with numWaitables_var := m.ws.numWaitables_var + 1 }
        records := ⟨w, flagsToWaitFor⟩ :: m.records })

/-- Whether the operation threw `WaitSet::Exc`. -/
def Outcome.hasThrown {α : Type} : Outcome α → Bool
  | .threw _ => true
  | _ => false

/-- Whether the operation tripped an assertion. -/
def Outcome.hasAsserted {α : Type} : Outcome α → Bool
  | .assertFailed _ => true
  | _ => false

/-! ## Concrete configurations used in the examples -/

/-- A Windows build with assertions, `MAXIMUM_WAIT_OBJECTS` being 64. -/
def windows_debug : Config :=
  { M_OS := .WINDOWS, DEBUG := true, MAXIMUM_WAIT_OBJECTS := 64,
    epoll_create := fun _ => -1, kqueue := -1 }

/-- A Windows build without assertions, `MAXIMUM_WAIT_OBJECTS` being 64. -/
def windows_release : Config :=
  { M_OS := .WINDOWS, DEBUG := false, MAXIMUM_WAIT_OBJECTS := 64,
    epoll_create := fun _ => -1, kqueue := -1 }

/-- A Linux build with assertions where `epoll_create` hands out descriptor 3
for a positive size and fails otherwise. -/
def linux_debug : Config :=
  { M_OS := .LINUX, DEBUG := true, MAXIMUM_WAIT_OBJECTS := 64,
    epoll_create := fun size => if size > 0 then 3 else -1, kqueue := -1 }

/-- A Linux build without assertions, same `epoll_create`. -/
def linux_release : Config :=
  { M_OS := .LINUX, DEBUG := false, MAXIMUM_WAIT_OBJECTS := 64,
    epoll_create := fun size => if size > 0 then 3 else -1, kqueue := -1 }

/-- A Mac OS X build without assertions where `kqueue` hands out descriptor 5. -/
def macosx_release : Config :=
  { M_OS := .MACOSX, DEBUG := false, MAXIMUM_WAIT_OBJECTS := 64,
    epoll_create := fun _ => -1, kqueue := 5 }

/-! ## Observations on runs and objects -/

/-- Whether a system call is a creation of the backend handle that failed:
`epoll_create` returning a negative value, or `kqueue` returning -1. -/
def SysCall.creationFailed : SysCall → Bool
  | .epoll_create _ ret => decide (ret < 0)
  | .kqueue ret => decide (ret = -1)
  | .close _ => false

/-- The value returned by a system call that creates a backend handle. -/
def SysCall.created : SysCall → Option Int
  | .epoll_create _ ret => some ret
  | .kqueue ret => some ret
  | .close _ => none

/-- The backend handle a wait set stores: `epollSet` or `queue`; the poll-table
backend stores none. -/
def Backend.handle : Backend → Option Int
  | .WINDOWS _ _ => none
  | .LINUX epollSet _ => some epollSet
  | .MACOSX queue _ => some queue

/-- An epoll wait set of capacity 2 holding one waitable, descriptor 3. -/
def linux_one_added : WaitSet :=
  { size_var := 2, numWaitables_var := 1, backend := .LINUX 3 [⟨0, 0⟩, ⟨0, 0⟩] }

/-- An epoll wait set of capacity 1 that is full, with its registration. -/
def linux_full : Multiplexer :=
  { ws := { size_var := 1, numWaitables_var := 1, backend := .LINUX 3 [⟨0, 0⟩] }
    records := [⟨10, 1⟩] }

/-! ## Auxiliary facts -/

theorem int_cast_pos_iff (u : Nat) (hu : u < UNSIGNED_RANGE) :
    0 < int_cast u ↔ (1 ≤ u ∧ u ≤ 2 ^ 31 - 1) := by
  unfold UNSIGNED_RANGE at hu
  unfold int_cast
  rw [Nat.mod_eq_of_lt hu]
  split_ifs with h <;> omega

/-- The Windows constructor, case by case. -/
theorem create_windows (cfg : Config) (maxSize : Nat) (hos : cfg.M_OS = .WINDOWS) :
    WaitSet.create cfg maxSize =
      if maxSize ≤ cfg.MAXIMUM_WAIT_OBJECTS then
        ⟨.returned ⟨maxSize, 0,
          .WINDOWS (List.replicate maxSize none) (List.replicate maxSize 0)⟩, []⟩
      else if cfg.DEBUG = true then
        ⟨.assertFailed
          ("maxSize should be less than " ++ toString cfg.MAXIMUM_WAIT_OBJECTS), []⟩
      else
        ⟨.threw "WaitSet::WaitSet(): requested WaitSet size is too big", []⟩ := by
  unfold WaitSet.create ASSERT_INFO
  rw [hos]
  by_cases h : maxSize ≤ cfg.MAXIMUM_WAIT_OBJECTS
  · have h2 : ¬ maxSize > cfg.MAXIMUM_WAIT_OBJECTS := by omega
    simp [h, h2]
  · have h2 : maxSize > cfg.MAXIMUM_WAIT_OBJECTS := by omega
    cases hd : cfg.DEBUG <;> simp [h, h2]

/-- The Linux constructor, case by case. -/
theorem create_linux (cfg : Config) (maxSize : Nat) (hos : cfg.M_OS = .LINUX) :
    WaitSet.create cfg maxSize =
      if cfg.DEBUG = true ∧ ¬ 0 < int_cast maxSize then
        ⟨.assertFailed "no additional info", []⟩
      else if cfg.epoll_create (int_cast maxSize) < 0 then
        ⟨.threw "WaitSet::WaitSet(): epoll_create() failed",
          [SysCall.epoll_create (int_cast maxSize) (cfg.epoll_create (int_cast maxSize))]⟩
      else
        ⟨.returned ⟨maxSize, 0,
          .LINUX (cfg.epoll_create (int_cast maxSize)) (List.replicate maxSize ⟨0, 0⟩)⟩,
          [SysCall.epoll_create (int_cast maxSize) (cfg.epoll_create (int_cast maxSize))]⟩ := by
  unfold WaitSet.create ASSERT ASSERT_INFO
  rw [hos]
  by_cases h : 0 < int_cast maxSize <;> cases hd : cfg.DEBUG <;> simp [h]

/-- The Mac OS X constructor, case by case. -/
theorem create_macosx (cfg : Config) (maxSize : Nat) (hos : cfg.M_OS = .MACOSX) :
    WaitSet.create cfg maxSize =
      if cfg.kqueue = -1 then
        ⟨.threw "WaitSet::WaitSet(): kqueue creation failed", [SysCall.kqueue cfg.kqueue]⟩
      else
        ⟨.returned ⟨maxSize, 0,
          .MACOSX cfg.kqueue (List.replicate (unsigned_mul maxSize 2) ⟨0, 0, 0, 0, 0, 0⟩)⟩,
          [SysCall.kqueue cfg.kqueue]⟩ := by
  unfold WaitSet.create
  rw [hos]

/-! ## C1: the capacity ceiling of the poll-table backend -/

/-- C4, as stated, fails: on the poll-table backend (even with assertions
compiled in) and on the kqueue backend the constructor accepts `maxSize == 0`
without exception and without assertion failure, and `size()` is then 0. -/
theorem C4_counterexample_zero_capacity_accepted :
    WaitSet.create windows_debug 0 = ⟨.returned ⟨0, 0, .WINDOWS [] []⟩, []⟩ ∧
    WaitSet.create macosx_release 0
      = ⟨.returned ⟨0, 0, .MACOSX 5 []⟩, [SysCall.kqueue 5]⟩ ∧
    ¬ 0 < (WaitSet.size ⟨0, 0, .WINDOWS [] []⟩).1 ∧
    ¬ 0 < (WaitSet.size ⟨0, 0, .MACOSX 5 []⟩).1 := by
  decide

/-- C4, amended: for every backend and every `maxSize` for which construction
succeeds, `size()` equals `maxSize`. It is positive (and at most `2^31 - 1`)
on the epoll backend in a build with assertions; the poll-table backend (when
the ceiling is not exceeded) and the kqueue backend (when `kqueue` succeeds)
accept `maxSize == 0` and give `size() == 0`. -/
theorem C4_capacity_on_success (cfg : Config) (maxSize : Nat)
    (hu : maxSize < UNSIGNED_RANGE) :
    (∀ ws, (WaitSet.create cfg maxSize).outcome = .returned ws →
      (WaitSet.size ws).1 = maxSize ∧
      (cfg.M_OS = .LINUX → cfg.DEBUG = true →
        0 < (WaitSet.size ws).1 ∧ (WaitSet.size ws).1 ≤ 2 ^ 31 - 1)) ∧
    (cfg.M_OS = .WINDOWS →
      (WaitSet.create cfg 0).outcome = .returned ⟨0, 0, .WINDOWS [] []⟩) ∧
    (cfg.M_OS = .MACOSX → cfg.kqueue ≠ -1 →
      (WaitSet.create cfg 0).outcome = .returned ⟨0, 0, .MACOSX cfg.kqueue []⟩) := by
  refine ⟨?_, ?_, ?_⟩
  · intro ws hok
    cases hos : cfg.M_OS
    · rw [create_windows cfg maxSize hos] at hok
      split_ifs at hok
      simp at hok
      subst hok
      simp [WaitSet.size]
    · rw [create_linux cfg maxSize hos] at hok
      split_ifs at hok with h1 h2
      simp at hok
      subst hok
      refine ⟨rfl, fun _ hd => ?_⟩
      have hp : 0 < int_cast maxSize := by
        by_contra hn
        exact h1 ⟨hd, hn⟩
      have := (int_cast_pos_iff maxSize hu).mp hp
      simp only [WaitSet.size]
      omega
    · rw [create_macosx cfg maxSize hos] at hok
      split_ifs at hok
      simp at hok
      subst hok
      simp [WaitSet.size]
  · intro hos
    rw [create_windows cfg 0 hos]
    simp
  · intro hos hk
    rw [create_macosx cfg 0 hos]
    simp [hk, unsigned_mul]

/-- C4, amended, at concrete builds: an epoll wait set of capacity 7 built with
assertions has positive size, and a poll-table wait set of capacity 0 exists. -/
theorem C4_capacity_on_success_witness :
    ((WaitSet.size ⟨7, 0, .LINUX 3 (List.replicate 7 ⟨0, 0⟩)⟩).1 = 7 ∧
      (linux_debug.M_OS = .LINUX → linux_debug.DEBUG = true →
        0 < (WaitSet.size ⟨7, 0, .LINUX 3 (List.replicate 7 ⟨0, 0⟩)⟩).1 ∧
        (WaitSet.size ⟨7, 0, .LINUX 3 (List.replicate 7 ⟨0, 0⟩)⟩).1 ≤ 2 ^ 31 - 1)) ∧
    (WaitSet.create windows_release 0).outcome = .returned ⟨0, 0, .WINDOWS [] []⟩ :=
  ⟨(C4_capacity_on_success linux_debug 7 (by decide)).1 _ (by decide),
   (C4_capacity_on_success windows_release 0 (by decide)).2.1 rfl⟩

/-! ## C5: construction failure on the queue backends -/

/-- C5: on the epoll and kqueue backends the constructor throws `WaitSet::Exc`
if and only if it made a creation call that failed (`epoll_create` returned a
negative value, respectively `kqueue` returned -1); whatever the requested
capacity, it does not throw when the creation call of the environment
succeeds; and on success it made exactly one creation call and the stored
backend handle is the value that call returned. -/
theorem C5_queue_construction_failure (cfg : Config) (maxSize : Nat)
    (hos : cfg.M_OS = .LINUX ∨ cfg.M_OS = .MACOSX) :
    ((WaitSet.create cfg maxSize).outcome.hasThrown = true
      ↔ (WaitSet.create cfg maxSize).calls.any SysCall.creationFailed = true) ∧
    (cfg.M_OS = .LINUX → (WaitSet.create cfg maxSize).outcome.hasThrown = true →
      cfg.epoll_create (int_cast maxSize) < 0) ∧
    (cfg.M_OS = .MACOSX →
      ((WaitSet.create cfg maxSize).outcome.hasThrown = true ↔ cfg.kqueue = -1)) ∧
    ((∀ size, 0 ≤ cfg.epoll_create size) → cfg.kqueue ≠ -1 →
      (WaitSet.create cfg maxSize).outcome.hasThrown = false) ∧
    (∀ ws, (WaitSet.create cfg maxSize).outcome = .returned ws →
      ∃ call fd, (WaitSet.create cfg maxSize).calls = [call] ∧
        call.created = some fd ∧ call.creationFailed = false ∧
        ws.backend.handle = some fd) := by
  rcases hos with hos | hos
  · rw [create_linux cfg maxSize hos]
    refine ⟨?_, ?_, ?_, ?_, ?_⟩
    · split_ifs <;> simp_all [Outcome.hasThrown, SysCall.creationFailed]
    · intro _
      split_ifs <;> simp_all [Outcome.hasThrown]
    · intro h
      rw [hos] at h
      cases h
    · intro hc _
      have := hc (int_cast maxSize)
      split_ifs with h1 h2 <;> first | rfl | omega
    · intro ws hok
      split_ifs at hok ⊢ with h1 h2
      cases hok
      exact ⟨_, _, rfl, rfl, by simpa [SysCall.creationFailed] using h2, rfl⟩
  · rw [create_macosx cfg maxSize hos]
    refine ⟨?_, ?_, ?_, ?_, ?_⟩
    · split_ifs with h1 <;> simp [Outcome.hasThrown, SysCall.creationFailed, h1]
    · intro h
      rw [hos] at h
      cases h
    · intro _
      split_ifs with h1 <;> simp [Outcome.hasThrown, h1]
    · intro _ hk
      simp [hk, Outcome.hasThrown]
    · intro ws hok
      split_ifs at hok ⊢ with h1
      cases hok
      exact ⟨_, _, rfl, rfl, by simpa [SysCall.creationFailed] using h1, rfl⟩

/-- C5 at a Linux release build: capacity 2 succeeds with the descriptor 3 that
`epoll_create` returned, and capacity 0 throws because `epoll_create` fails. -/
theorem C5_queue_construction_failure_witness :
    ((WaitSet.create linux_release 0).outcome.hasThrown = true
      ↔ (WaitSet.create linux_release 0).calls.any SysCall.creationFailed = true) ∧
    (WaitSet.create linux_release 0).outcome.hasThrown = true ∧
    WaitSet.create linux_release 2
      = ⟨.returned ⟨2, 0, .LINUX 3 [⟨0, 0⟩, ⟨0, 0⟩]⟩, [SysCall.epoll_create 2 3]⟩ :=
  ⟨(C5_queue_construction_failure linux_release 0 (Or.inl rfl)).1, by decide, by decide⟩

/-! ## C3: the destructor -/

/-- C3, as stated, fails in a build without assertions: destroying an epoll
wait set that still holds one waitable raises no diagnostic; the destructor
returns after closing the descriptor. -/
theorem C3_counterexample_release_destroys_nonempty :
    (WaitSet.numWaitables linux_one_added).1 ≠ 0 ∧
    WaitSet.destroy linux_release linux_one_added = ⟨.returned (), [SysCall.close 3]⟩ ∧
    ¬ ((WaitSet.destroy linux_release linux_one_added).outcome.hasAsserted = true
        ↔ (WaitSet.numWaitables linux_one_added).1 ≠ 0) := by
  decide

/-- C3, amended: destroying a WaitSet triggers the emptiness assertion if and
only if assertions are compiled in and `numWaitables() != 0`, and then no
system call is made. For every WaitSet with `numWaitables() == 0`, in every
build, destruction completes without a diagnostic; on the queue backends it
closes the backend handle exactly once and makes no other call, and on the
poll-table backend it makes no call. -/
theorem C3_destructor_emptiness_assertion (cfg : Config) (ws : WaitSet) :
    ((WaitSet.destroy cfg ws).outcome.hasAsserted = true
      ↔ (cfg.DEBUG = true ∧ (WaitSet.numWaitables ws).1 ≠ 0)) ∧
    ((WaitSet.destroy cfg ws).outcome.hasAsserted = true →
      (WaitSet.destroy cfg ws).calls = []) ∧
    ((WaitSet.numWaitables ws).1 = 0 →
      (WaitSet.destroy cfg ws).outcome = .returned () ∧
      (∀ fd, ws.backend.handle = some fd →
        (WaitSet.destroy cfg ws).calls = [SysCall.close fd] ∧
        (WaitSet.destroy cfg ws).calls.count (SysCall.close fd) = 1) ∧
      (ws.backend.handle = none → (WaitSet.destroy cfg ws).calls = [])) := by
  obtain ⟨sz, n, b⟩ := ws
  unfold WaitSet.destroy ASSERT_INFO WaitSet.numWaitables
  by_cases hn : n = 0 <;> cases hd : cfg.DEBUG <;> cases b <;>
    simp [hn, Outcome.hasAsserted, Backend.handle]

/-- A wait set that the constructor returned has the capacity it was asked
for, holds no waitable, and has the backend of the target. -/
theorem create_returned (cfg : Config) (maxSize : Nat) (ws : WaitSet)
    (hok : (WaitSet.create cfg maxSize).outcome = .returned ws) :
    ws.size_var = maxSize ∧ ws.numWaitables_var = 0 ∧
    (cfg.M_OS = .WINDOWS →
      ws.backend = .WINDOWS (List.replicate maxSize none) (List.replicate maxSize 0)) ∧
    (cfg.M_OS = .LINUX →
      ws.backend = .LINUX (cfg.epoll_create (int_cast maxSize))
        (List.replicate maxSize ⟨0, 0⟩)) ∧
    (cfg.M_OS = .MACOSX →
      ws.backend = .MACOSX cfg.kqueue
        (List.replicate (unsigned_mul maxSize 2) ⟨0, 0, 0, 0, 0, 0⟩)) := by
  cases hos : cfg.M_OS
  · rw [create_windows cfg maxSize hos] at hok
    split_ifs at hok
    cases hok
    simp
  · rw [create_linux cfg maxSize hos] at hok
    split_ifs at hok
    cases hok
    simp
  · rw [create_macosx cfg maxSize hos] at hok
    split_ifs at hok
    cases hok
    simp

/-! ## C6: the accessors -/

/-- C6: for every successfully constructed WaitSet, `size()` returns exactly
the `maxSize` passed to the constructor; `size()` and `numWaitables()` leave
the object (capacity, registered count, backend state) unchanged, on any
WaitSet, so that a repeated or interleaved call returns the same value. -/
theorem C6_accessors_read_only (cfg : Config) (maxSize : Nat) (ws : WaitSet)
    (hok : (WaitSet.create cfg maxSize).outcome = .returned ws) :
    (WaitSet.size ws).1 = maxSize ∧
    (∀ s : WaitSet,
      (WaitSet.size s).2 = s ∧ (WaitSet.numWaitables s).2 = s ∧
      (WaitSet.size (WaitSet.size s).2).1 = (WaitSet.size s).1 ∧
      (WaitSet.numWaitables (WaitSet.numWaitables s).2).1 = (WaitSet.numWaitables s).1 ∧
      (WaitSet.size (WaitSet.numWaitables s).2).1 = (WaitSet.size s).1 ∧
      (WaitSet.numWaitables (WaitSet.size s).2).1 = (WaitSet.numWaitables s).1) := by
  refine ⟨(create_returned cfg maxSize ws hok).1, fun s => ?_⟩
  simp [WaitSet.size, WaitSet.numWaitables]

/-- C6 at a poll-table wait set of capacity 4. -/
theorem C6_accessors_read_only_witness :
    (WaitSet.create windows_release 4).outcome
      = .returned ⟨4, 0, .WINDOWS [none, none, none, none] [0, 0, 0, 0]⟩ ∧
    (WaitSet.size ⟨4, 0, .WINDOWS [none, none, none, none] [0, 0, 0, 0]⟩).1 = 4 :=
  ⟨by decide, (C6_accessors_read_only windows_release 4 _ (by decide)).1⟩

/-! ## C7: a fresh wait set is empty -/

/-- C7: every freshly constructed WaitSet has `numWaitables() == 0`, and
`0 <= numWaitables() <= size()` holds for it. -/
theorem C7_fresh_wait_set_is_empty (cfg : Config) (maxSize : Nat) (ws : WaitSet)
    (hok : (WaitSet.create cfg maxSize).outcome = .returned ws) :
    (WaitSet.numWaitables ws).1 = 0 ∧
    0 ≤ (WaitSet.numWaitables ws).1 ∧
    (WaitSet.numWaitables ws).1 ≤ (WaitSet.size ws).1 := by
  have h := create_returned cfg maxSize ws hok
  simp [WaitSet.size, WaitSet.numWaitables, h.2.1]

/-- C7 at a kqueue wait set of capacity 3. -/
theorem C7_fresh_wait_set_is_empty_witness :
    (WaitSet.create macosx_release 3).outcome
      = .returned ⟨3, 0, .MACOSX 5 (List.replicate 6 ⟨0, 0, 0, 0, 0, 0⟩)⟩ ∧
    (WaitSet.numWaitables ⟨3, 0, .MACOSX 5 (List.replicate 6 ⟨0, 0, 0, 0, 0, 0⟩)⟩).1 = 0 :=
  ⟨by decide, (C7_fresh_wait_set_is_empty macosx_release 3 _ (by decide)).1⟩

/-! ## C10: lengths of the buffers allocated at construction -/

/-- C2: for every WaitSet whose `numWaitables()` equals `size()`, `add(w, flags)`
fails with `CapacityExceeded` for every waitable `w` and every flags value,
whatever the OS registration call would answer and whether or not `w` is
already registered; the state after the failed call, and so `numWaitables()`,
is what it was before. -/
theorem C2_add_to_full_fails (os_register : Nat → Nat → Bool) (m : Multiplexer)
    (w flagsToWaitFor : Nat)
    (hfull : (WaitSet.numWaitables m.ws).1 = (WaitSet.size m.ws).1) :
    (WaitSet.add os_register m w flagsToWaitFor).1 = some .CapacityExceeded ∧
    (WaitSet.numWaitables (WaitSet.add os_register m w flagsToWaitFor).2.ws).1
      = (WaitSet.numWaitables m.ws).1 ∧
    (WaitSet.add os_register m w flagsToWaitFor).2 = m := by
  simp only [WaitSet.numWaitables, WaitSet.size] at hfull
  simp [WaitSet.add, hfull]

/-- C2 at a full epoll wait set of capacity 1: adding a second waitable is
refused and the count stays 1. -/
theorem C2_add_to_full_fails_witness :
    (WaitSet.numWaitables linux_full.ws).1 = (WaitSet.size linux_full.ws).1 ∧
    (WaitSet.add (fun _ _ => true) linux_full 11 1).1 = some .CapacityExceeded ∧
    (WaitSet.numWaitables (WaitSet.add (fun _ _ => true) linux_full 11 1).2.ws).1 = 1 :=
  ⟨by decide,
   (C2_add_to_full_fails (fun _ _ => true) linux_full 11 1 (by decide)).1,
   (C2_add_to_full_fails (fun _ _ => true) linux_full 11 1 (by decide)).2.1⟩

/-! ## C8: the public wait entry points delegate -/

/-- C8: whatever the private `wait(waitInfinitly, timeout, out_events)` does,
for every wait set, buffer `b` and timeout `t`: `wait(b)` is `wait(true, 0, b)`,
`wait()` is `wait(true, 0, null)`, `waitWithTimeout(t, b)` is
`wait(false, t, b)` and `waitWithTimeout(t)` is `wait(false, t, null)`. -/
theorem C8_wait_entry_points_delegate {ρ : Type} (wait_private : PrivateWait ρ)
    (self : WaitSet) (b : Buf) (t : Nat) :
    WaitSet.wait wait_private self b = wait_private self true 0 (some b) ∧
    WaitSet.wait_noBuf wait_private self = wait_private self true 0 none ∧
    WaitSet.waitWithTimeout wait_private self t b = wait_private self false t (some b) ∧
    WaitSet.waitWithTimeout_noBuf wait_private self t = wait_private self false t none :=
  ⟨rfl, rfl, rfl, rfl⟩

end wt
